import Mathlib

/-!
Verification of the rustbridge bundle-loader core: manifest parsing,
checksum and minisign signature verification, platform/variant resolution,
and the safe-extraction pipeline.

The embedding mirrors the Python sources
`rustbridge/core/bundle_loader.py`, `rustbridge/core/bundle_manifest.py`
and `rustbridge/core/minisign_verifier.py`.  Python strings are modelled
as `List Char`, byte strings as `List Nat`; external library primitives
(SHA-256, BLAKE2b, Ed25519, base64 decoding, JSON parsing, UTF-8
decoding) are abstracted as function parameters gathered in the `Ext`
structure, since their implementations live outside this repository.
Filesystem effects are modelled as an explicit trace of operations.
-/

namespace RustBridge

/-- Python strings, as lists of characters. -/
abbrev Str := List Char

/-- Python byte strings, as lists of byte values. -/
abbrev Bytes := List Nat

/-- Shorthand turning a Lean string literal into the `Str` model. -/
def pyS (s : String) : Str := s.toList

/-- Python `str.lower()`, modelled character-wise. -/
def pyLower (s : Str) : Str := s.map Char.toLower

/-- Python `str.strip()`: drop whitespace from both ends. -/
def pyStrip (s : Str) : Str :=
  ((s.dropWhile Char.isWhitespace).reverse.dropWhile Char.isWhitespace).reverse

/-- Python `s.split(sep)` for a one-character separator (keeps empty pieces). -/
def pySplit (s : Str) (sep : Char) : List Str := s.splitOn sep

/-- First-match association-list lookup, modelling Python `dict.get(k)`. -/
def lookupA {α : Type} (o : List (Str × α)) (k : Str) : Option α :=
  match o with
  | [] => none
  | (k', v) :: rest => if k' = k then some v else lookupA rest k

/-! ## Error taxonomy

One constructor per distinct raise site relevant to the claims.
`PluginException` messages are modelled structurally; `ValueError`s from
the minisign parser carry the expected/actual figures their messages state. -/

inductive PlugErr where
  | bundleNotFound
  | fileNotFound (path : Str)
  | parseJson
  | missingField (field : Str)
  | platformNotSupported (plat : Str)
  | variantNotFound (variant plat : Str)
  | checksumMismatch (path : Str)
  | schemaNotFound (name : Str)
  | schemaChecksumMismatch (name : Str)
  | noPublicKey
  | sigFileMissing (path : Str)
  | manifestSigFailed
  | librarySigFailed (path : Str)
  | fileExists (path : Str)
  | invalidB64Key
  | invalidKeyLength (expected actual : Nat)
  | invalidKeyAlgo (got : Bytes)
  | sigTooFewLines
  | invalidB64Sig
  | invalidSigLength (expected actual : Nat)
  | invalidSigAlgo (got : Bytes)
  deriving DecidableEq, Repr

/-! ## External primitives

Cryptographic and decoding primitives used by the loader come from
external libraries (`hashlib`, `base64`, `json`, PyNaCl); they are
abstracted as parameters.  Theorems quantify over them, so nothing
proved below depends on a particular implementation. -/

/-- A JSON value, the result type of `json.loads`. -/
inductive JValue where
  | jnull
  | jbool (b : Bool)
  | jnum (n : Int)
  | jstr (s : Str)
  | jarr (elems : List JValue)
  | jobj (fields : List (Str × JValue))

/-- Python truthiness of a JSON value (`if not x`). -/
def JValue.truthy : JValue → Bool
  | .jnull => false
  | .jbool b => b
  | .jnum n => n ≠ 0
  | .jstr s => ¬ s.isEmpty
  | .jarr es => ¬ es.isEmpty
  | .jobj fs => ¬ fs.isEmpty

/-- Truthiness of an optional lookup result (absent keys are falsy). -/
def truthyO : Option JValue → Bool
  | none => false
  | some v => v.truthy

/-- String content of a JSON value; non-string values are modelled by the
empty string (the claims only exercise string-valued fields). -/
def strOf : JValue → Str
  | .jstr s => s
  | _ => []

/-- String content of an optional JSON value. -/
def strOfO : Option JValue → Str
  | none => []
  | some v => strOf v

/-- Optional string content of an optional JSON value. -/
def optStrOf : Option JValue → Option Str
  | some (.jstr s) => some s
  | _ => none

/-- Object items of a JSON value (`dict.items()`); non-objects yield none,
modelled as the empty item list (the claims only exercise object shapes). -/
def JValue.items : JValue → List (Str × JValue)
  | .jobj fs => fs
  | _ => []

/-- Items of an optional JSON value, with `dict.get(k, \x7b\x7d)` defaulting. -/
def itemsO : Option JValue → List (Str × JValue)
  | none => []
  | some v => v.items

/-- External primitives: hashes, Ed25519, base64 and JSON decoding.
`sha256hex` returns `hashlib.sha256(data).hexdigest()`; `blake2b512`
returns the 64-byte BLAKE2b digest; `ed25519Verify pk msg sig` is
PyNaCl's boolean verification outcome; `b64decode` returns `none` where
`base64.b64decode` raises; `jsonParse` combines UTF-8 decoding and
`json.loads`, `none` where either raises; `utf8Decode` decodes signature
file bytes to text. -/
structure Ext where
  sha256hex : Bytes → Str
  blake2b512 : Bytes → Bytes
  ed25519Verify : Bytes → Bytes → Bytes → Bool
  b64decode : Str → Option Bytes
  jsonParse : Bytes → Option JValue
  utf8Decode : Bytes → Str

/-! ## ChecksumVerifier (`BundleLoader._verify_checksum`) -/

/-- The checksum scheme tag `sha256:`. -/
def shaTag : Str := pyS "sha256:"

/-- Embedding of `BundleLoader._verify_checksum`: compute the hex digest,
strip an optional `sha256:` tag from `expected` (detected
case-insensitively, stripped from the original string), lowercase both
sides and compare. -/
def verifyChecksum (sha256hex : Bytes → Str) (data : Bytes) (expected : Str) : Bool :=
  let actual := sha256hex data
  let expected2 := if shaTag.isPrefixOf (pyLower expected) then expected.drop 7 else expected
  pyLower actual == pyLower expected2

/-- The prefix-stripping step of `_verify_checksum`, factored for
statements about it. -/
def stripShaTag (expected : Str) : Str :=
  if shaTag.isPrefixOf (pyLower expected) then expected.drop 7 else expected

/-! ## MinisignVerifier (`minisign_verifier.py`) -/

/-- Algorithm id of an Ed25519 public key, ASCII `Ed`. -/
def pkAlgId : Bytes := [0x45, 0x64]

/-- Algorithm id of a prehashed Ed25519 signature, ASCII `ED`. -/
def sigAlgId : Bytes := [0x45, 0x44]

/-- Embedding of `MinisignVerifier._parse_public_key`: base64-decode the
stripped key, require exactly 42 bytes and the `Ed` tag, and return the
32-byte key together with the 8-byte key id. -/
def parsePublicKey (ext : Ext) (publicKeyBase64 : Str) : Except PlugErr (Bytes × Bytes) :=
  match ext.b64decode (pyStrip publicKeyBase64) with
  | none => .error .invalidB64Key
  | some decoded =>
    if decoded.length ≠ 42 then .error (.invalidKeyLength 42 decoded.length)
    else if decoded.take 2 ≠ pkAlgId then .error (.invalidKeyAlgo (decoded.take 2))
    else .ok (decoded.drop 10, (decoded.drop 2).take 8)

/-- Embedding of `MinisignVerifier._parse_signature`: split the stripped
block into lines, base64-decode the second line, require exactly 74 bytes,
classify the tag (`ED` prehashed, `Ed` legacy, otherwise an error) and
return the key id, the 64-byte signature and the prehashed flag. -/
def parseSignature (ext : Ext) (signatureString : Str) : Except PlugErr (Bytes × Bytes × Bool) :=
  match pySplit (pyStrip signatureString) '\n' with
  | _line1 :: line2 :: _rest =>
    match ext.b64decode (pyStrip line2) with
    | none => .error .invalidB64Sig
    | some decoded =>
      if decoded.length ≠ 74 then .error (.invalidSigLength 74 decoded.length)
      else if decoded.take 2 = sigAlgId then
        .ok ((decoded.drop 2).take 8, decoded.drop 10, true)
      else if decoded.take 2 = pkAlgId then
        .ok ((decoded.drop 2).take 8, decoded.drop 10, false)
      else .error (.invalidSigAlgo (decoded.take 2))
  | _ => .error .sigTooFewLines

/-- Embedding of `MinisignVerifier.__init__` followed by `verify`: parse
the public key and the signature (format errors propagate), return
`false` on a key-id mismatch, otherwise run Ed25519 over the BLAKE2b-512
digest (prehashed) or the raw data (legacy). -/
def minisignVerify (ext : Ext) (publicKeyBase64 : Str) (data : Bytes)
    (signatureString : Str) : Except PlugErr Bool :=
  match parsePublicKey ext publicKeyBase64 with
  | .error e => .error e
  | .ok (pk, keyId) =>
    match parseSignature ext signatureString with
    | .error e => .error e
    | .ok (sigKeyId, signature, isPrehashed) =>
      if sigKeyId ≠ keyId then .ok false
      else
        let dataToVerify := if isPrehashed then ext.blake2b512 data else data
        .ok (ext.ed25519Verify pk dataToVerify signature)

/-! ## Manifest data model (`bundle_manifest.py`)

The dataclasses, with `dict` fields as insertion-ordered association
lists and optional fields as `Option`.  Where Python stores a raw JSON
value in a string-typed slot, the embedding stores its string projection
(`strOf`); the claims only exercise string-valued and absent fields. -/

/-- Embedding of `VariantInfo`. -/
structure VariantInfo where
  library : Str
  checksum : Str
  build : Option JValue := none

/-- Embedding of `PlatformInfo`. -/
structure PlatformInfo where
  library : Str
  checksum : Str
  default_variant : Option Str := none
  variants : List (Str × VariantInfo) := []

/-- Embedding of `PlatformInfo.get_library`.  The Python guard
`self.variants and variant in self.variants` succeeds exactly when the
lookup finds the variant (a successful lookup implies a non-empty map). -/
def PlatformInfo.get_library (p : PlatformInfo) (variant : Str) : Str :=
  match lookupA p.variants variant with
  | some vi => vi.library
  | none => p.library

/-- Embedding of `PlatformInfo.get_checksum`. -/
def PlatformInfo.get_checksum (p : PlatformInfo) (variant : Str) : Str :=
  match lookupA p.variants variant with
  | some vi => vi.checksum
  | none => p.checksum

/-- Embedding of `PlatformInfo.get_default_variant`: the explicit
`default_variant` when truthy, else `release`. -/
def PlatformInfo.get_default_variant (p : PlatformInfo) : Str :=
  match p.default_variant with
  | some s => if s.isEmpty then pyS "release" else s
  | none => pyS "release"

/-- Embedding of `PluginInfo`. -/
structure PluginInfo where
  name : Str
  version : Str
  description : Option Str := none
  authors : List JValue := []
  license : Option Str := none
  repository : Option Str := none

/-- Embedding of `SchemaInfo`. -/
structure SchemaInfo where
  path : Str
  checksum : Str
  format : Option Str := none
  description : Option Str := none

/-- Embedding of `GitInfo`. -/
structure GitInfo where
  commit : Option Str := none
  branch : Option Str := none
  tag : Option Str := none
  dirty : Option JValue := none

/-- Embedding of `BuildInfo`. -/
structure BuildInfo where
  built_by : Option Str := none
  built_at : Option Str := none
  host : Option Str := none
  compiler : Option Str := none
  rustbridge_version : Option Str := none
  git : Option GitInfo := none

/-- Embedding of `Sbom`. -/
structure Sbom where
  cyclonedx : Option Str := none
  spdx : Option Str := none

/-- Embedding of `BridgeInfo`. -/
structure BridgeInfo where
  jni : List (Str × PlatformInfo) := []

/-- Embedding of `BundleManifest`. -/
structure BundleManifest where
  bundle_version : Str
  plugin_name : Str
  plugin_version : Str
  platforms : List (Str × PlatformInfo)
  public_key : Option Str := none
  plugin_info : Option PluginInfo := none
  schemas : List (Str × SchemaInfo) := []
  build_info : Option BuildInfo := none
  sbom : Option Sbom := none
  schema_checksum : Option Str := none
  notices : Option Str := none
  bridges : Option BridgeInfo := none

/-- Embedding of `BundleManifest.get_platform`. -/
def BundleManifest.get_platform (m : BundleManifest) (plat : Str) : Option PlatformInfo :=
  lookupA m.platforms plat

/-! ## Manifest parsing (`BundleManifest.from_dict` / `from_json`) -/

/-- Parsing of one variant entry inside `from_dict`:
`VariantInfo(library=v.get("library",""), checksum=v.get("checksum",""), build=v.get("build"))`. -/
def parseVariantInfo (v : JValue) : VariantInfo :=
  { library := strOfO (lookupA v.items (pyS "library"))
    checksum := strOfO (lookupA v.items (pyS "checksum"))
    build := lookupA v.items (pyS "build") }

/-- Parsing of one platform entry inside `from_dict`: the optional
`variants` map (defaulting to empty) plus the flat fields, `library` and
`checksum` defaulting to the empty string. -/
def parsePlatformInfo (v : JValue) : PlatformInfo :=
  { library := strOfO (lookupA v.items (pyS "library"))
    checksum := strOfO (lookupA v.items (pyS "checksum"))
    default_variant := optStrOf (lookupA v.items (pyS "default_variant"))
    variants := (itemsO (lookupA v.items (pyS "variants"))).map
      (fun p => (p.1, parseVariantInfo p.2)) }

/-- Parsing of one schema entry inside `from_dict`. -/
def parseSchemaInfo (v : JValue) : SchemaInfo :=
  { path := strOfO (lookupA v.items (pyS "path"))
    checksum := strOfO (lookupA v.items (pyS "checksum"))
    format := optStrOf (lookupA v.items (pyS "format"))
    description := optStrOf (lookupA v.items (pyS "description")) }

/-- Parsing of the `git` block inside `build_info`. -/
def parseGitInfo (v : JValue) : GitInfo :=
  { commit := optStrOf (lookupA v.items (pyS "commit"))
    branch := optStrOf (lookupA v.items (pyS "branch"))
    tag := optStrOf (lookupA v.items (pyS "tag"))
    dirty := lookupA v.items (pyS "dirty") }

/-- Parsing of the `build_info` block, guarded by truthiness as in the
source (`if build_info_data:`). -/
def parseBuildInfo (v : JValue) : BuildInfo :=
  { built_by := optStrOf (lookupA v.items (pyS "built_by"))
    built_at := optStrOf (lookupA v.items (pyS "built_at"))
    host := optStrOf (lookupA v.items (pyS "host"))
    compiler := optStrOf (lookupA v.items (pyS "compiler"))
    rustbridge_version := optStrOf (lookupA v.items (pyS "rustbridge_version"))
    git := match lookupA v.items (pyS "git") with
      | some g => if g.truthy then some (parseGitInfo g) else none
      | none => none }

/-- Embedding of `BundleManifest.from_dict`.  Required fields are checked
by truthiness in source order: `bundle_version` first, then
`plugin.name`, then `plugin.version`; each failure names its field.  All
optional sections default (`platforms`/`schemas` to empty maps,
`build_info`/`sbom`/`bridges` to absent when missing or falsy). -/
def from_dict (data : List (Str × JValue)) : Except PlugErr BundleManifest :=
  let bundle_version := lookupA data (pyS "bundle_version")
  if ¬ truthyO bundle_version then .error (.missingField (pyS "bundle_version"))
  else
    let plugin_data := itemsO (lookupA data (pyS "plugin"))
    let plugin_name := lookupA plugin_data (pyS "name")
    let plugin_version := lookupA plugin_data (pyS "version")
    if ¬ truthyO plugin_name then .error (.missingField (pyS "plugin.name"))
    else if ¬ truthyO plugin_version then .error (.missingField (pyS "plugin.version"))
    else
      let platforms := (itemsO (lookupA data (pyS "platforms"))).map
        (fun p => (p.1, parsePlatformInfo p.2))
      let plugin_info :=
        if plugin_data.isEmpty then none
        else some
          { name := strOfO plugin_name
            version := strOfO plugin_version
            description := optStrOf (lookupA plugin_data (pyS "description"))
            authors := (match lookupA plugin_data (pyS "authors") with
              | some (.jarr xs) => xs
              | _ => [])
            license := optStrOf (lookupA plugin_data (pyS "license"))
            repository := optStrOf (lookupA plugin_data (pyS "repository")) }
      let schemas := (itemsO (lookupA data (pyS "schemas"))).map
        (fun p => (p.1, parseSchemaInfo p.2))
      let build_info := match lookupA data (pyS "build_info") with
        | some v => if v.truthy then some (parseBuildInfo v) else none
        | none => none
      let sbom := match lookupA data (pyS "sbom") with
        | some v =>
          if v.truthy then
            some { cyclonedx := optStrOf (lookupA v.items (pyS "cyclonedx"))
                   spdx := optStrOf (lookupA v.items (pyS "spdx")) }
          else none
        | none => none
      let bridges := match lookupA data (pyS "bridges") with
        | some v =>
          if v.truthy then
            some (BridgeInfo.mk ((itemsO (lookupA v.items (pyS "jni"))).map
              (fun p => (p.1, parsePlatformInfo p.2))))
          else none
        | none => none
      .ok
        { bundle_version := strOfO bundle_version
          plugin_name := strOfO plugin_name
          plugin_version := strOfO plugin_version
          platforms := platforms
          public_key := optStrOf (lookupA data (pyS "public_key"))
          plugin_info := plugin_info
          schemas := schemas
          build_info := build_info
          sbom := sbom
          schema_checksum := optStrOf (lookupA data (pyS "schema_checksum"))
          notices := optStrOf (lookupA data (pyS "notices"))
          bridges := bridges }

/-- Embedding of `BundleManifest.from_json`, taking the outcome of the
external JSON decoder: `none` (a `json.JSONDecodeError`) becomes the
distinct parse error, otherwise `from_dict` runs on the decoded object's
items. -/
def from_json (parsed : Option JValue) : Except PlugErr BundleManifest :=
  match parsed with
  | none => .error .parseJson
  | some v => from_dict v.items

/-! ## BundleLoader (`bundle_loader.py`)

The zip archive is a map from member paths to bytes.  The destination is
a directory name plus the set of file names already present in it.
Filesystem effects (`mkdtemp`, `mkdir`, `write_bytes`, `chmod`,
`shutil.rmtree`) are recorded as an explicit trace in source order. -/

/-- A zip archive: member paths mapped to their bytes. -/
abbrev Zip := List (Str × Bytes)

/-- Constructor arguments of `BundleLoader`. -/
structure LoaderCfg where
  verify_signatures : Bool
  public_key_override : Option Str := none

/-- A recorded filesystem operation. -/
inductive FxOp where
  | mkdtempD (dir : Str)
  | mkdirP (dir : Str)
  | writeFile (dir fname : Str) (data : Bytes)
  | chmodX (dir fname : Str)
  | rmtreeD (dir : Str)
  deriving DecidableEq, Repr

/-- Replay of a trace: the content of file `fname` in directory `dir`
afterwards, starting from an empty filesystem.  `rmtree` deletes every
file inside its directory. -/
def fileAfter (ops : List FxOp) (dir fname : Str) : Option Bytes :=
  ops.foldl
    (fun acc op =>
      match op with
      | .writeFile d f data => if d = dir ∧ f = fname then some data else acc
      | .rmtreeD d => if d = dir then none else acc
      | _ => acc)
    none

/-- Replay of a trace: whether directory `dir` exists afterwards,
starting from it not existing. -/
def dirAfter (ops : List FxOp) (dir : Str) : Bool :=
  ops.foldl
    (fun acc op =>
      match op with
      | .mkdtempD d => if d = dir then true else acc
      | .mkdirP d => if d = dir then true else acc
      | .rmtreeD d => if d = dir then false else acc
      | _ => acc)
    false

/-- Embedding of `BundleLoader._read_zip_entry`: the bytes of a member,
or the file-not-found error the `KeyError` handler raises. -/
def readZipEntry (zip : Zip) (path : Str) : Except PlugErr Bytes :=
  match lookupA zip path with
  | some bs => .ok bs
  | none => .error (.fileNotFound path)

/-- The archive member name of the manifest. -/
def manifestName : Str := pyS "manifest.json"

/-- The archive member name of the manifest signature. -/
def manifestSigName : Str := pyS "manifest.json.minisig"

/-- Embedding of `BundleLoader._load_manifest`: read `manifest.json` and
parse it. -/
def loadManifest (ext : Ext) (zip : Zip) : Except PlugErr BundleManifest :=
  match readZipEntry zip manifestName with
  | .error e => .error e
  | .ok manifestData => from_json (ext.jsonParse manifestData)

/-- Python `a or b` on the two optional public-key strings: the override
when truthy, else the manifest key. -/
def pyOrKey (override manifestKey : Option Str) : Option Str :=
  match override with
  | some s => if s.isEmpty then manifestKey else some s
  | none => manifestKey

/-- Embedding of `BundleLoader._verify_manifest_signature`: pick the
override or manifest key (error when neither is truthy), re-read the
manifest bytes, read the `.minisig` member (its absence gets a dedicated
error), and run minisign verification; `false` becomes the
manifest-signature-failed error. -/
def verifyManifestSignature (ext : Ext) (cfg : LoaderCfg) (zip : Zip)
    (manifest : BundleManifest) : Except PlugErr Unit :=
  match pyOrKey cfg.public_key_override manifest.public_key with
  | none => .error .noPublicKey
  | some pk =>
    if pk.isEmpty then .error .noPublicKey
    else
      match readZipEntry zip manifestName with
      | .error e => .error e
      | .ok manifestData =>
        match readZipEntry zip manifestSigName with
        | .error _ => .error (.sigFileMissing manifestSigName)
        | .ok sigData =>
          match minisignVerify ext pk manifestData (ext.utf8Decode sigData) with
          | .error e => .error e
          | .ok true => .ok ()
          | .ok false => .error .manifestSigFailed

/-- Embedding of `BundleLoader._verify_library_signature`: like the
manifest case, but the signature member sits at `libraryPath + ".minisig"`. -/
def verifyLibrarySignature (ext : Ext) (cfg : LoaderCfg) (zip : Zip)
    (manifest : BundleManifest) (libraryPath : Str) (libraryData : Bytes) :
    Except PlugErr Unit :=
  match pyOrKey cfg.public_key_override manifest.public_key with
  | none => .error .noPublicKey
  | some pk =>
    if pk.isEmpty then .error .noPublicKey
    else
      let sigPath := libraryPath ++ pyS ".minisig"
      match readZipEntry zip sigPath with
      | .error _ => .error (.sigFileMissing sigPath)
      | .ok sigData =>
        match minisignVerify ext pk libraryData (ext.utf8Decode sigData) with
        | .error e => .error e
        | .ok true => .ok ()
        | .ok false => .error (.librarySigFailed libraryPath)

/-- Embedding of `BundleLoader.get_current_platform`: normalise the
lowered OS and machine names through the two alias maps and join them
with a dash. -/
def getCurrentPlatform (system machine : Str) : Str :=
  let sys := pyLower system
  let mach := pyLower machine
  let osName :=
    if sys = pyS "linux" then pyS "linux"
    else if sys = pyS "darwin" then pyS "darwin"
    else if sys = pyS "windows" then pyS "windows"
    else sys
  let archName :=
    if mach = pyS "x86_64" then pyS "x86_64"
    else if mach = pyS "amd64" then pyS "x86_64"
    else if mach = pyS "aarch64" then pyS "aarch64"
    else if mach = pyS "arm64" then pyS "aarch64"
    else mach
  osName ++ pyS "-" ++ archName

/-- Python `variant or platform_info.get_default_variant()`. -/
def pyVariantOr (variant : Option Str) (dflt : Str) : Str :=
  match variant with
  | some v => if v.isEmpty then dflt else v
  | none => dflt

/-- Embedding of `pathlib.Path(p).name`: the last non-empty
slash-separated component. -/
def baseName (p : Str) : Str :=
  (((pySplit p '/').filter (fun s => ¬ s.isEmpty)).getLastD [])

/-- The pure check phase of `BundleLoader._extract_library_internal`, up
to but excluding the destination-existence check: load the manifest,
verify its signature when enabled, resolve the host platform and the
effective variant, read the library bytes, check their checksum, and
verify the library signature when enabled.  Returns the destination file
name and the bytes to write. -/
def extractChecks (ext : Ext) (cfg : LoaderCfg) (zip : Zip)
    (system machine : Str) (variant : Option Str) : Except PlugErr (Str × Bytes) :=
  match loadManifest ext zip with
  | .error e => .error e
  | .ok manifest =>
    match (if cfg.verify_signatures then verifyManifestSignature ext cfg zip manifest
           else .ok ()) with
    | .error e => .error e
    | .ok _ =>
      let currentPlatform := getCurrentPlatform system machine
      match manifest.get_platform currentPlatform with
      | none => .error (.platformNotSupported currentPlatform)
      | some platformInfo =>
        let effectiveVariant := pyVariantOr variant platformInfo.get_default_variant
        let libraryPath := platformInfo.get_library effectiveVariant
        let checksum := platformInfo.get_checksum effectiveVariant
        if libraryPath.isEmpty then
          .error (.variantNotFound effectiveVariant currentPlatform)
        else
          match readZipEntry zip libraryPath with
          | .error e => .error e
          | .ok libData =>
            if ¬ verifyChecksum ext.sha256hex libData checksum then
              .error (.checksumMismatch libraryPath)
            else
              match (if cfg.verify_signatures then
                       verifyLibrarySignature ext cfg zip manifest libraryPath libData
                     else .ok ()) with
              | .error e => .error e
              | .ok _ => .ok (baseName libraryPath, libData)

/-- Embedding of `BundleLoader._extract_library_internal`: run the check
phase, then apply the destination policy (`fail_if_exists` against the
files already in `dest`), and only then perform the filesystem effects —
`mkdir(parents=True, exist_ok=True)`, `write_bytes`, and `chmod +x`
except on Windows (`os.name == "nt"`). -/
def extractLibraryInternal (ext : Ext) (cfg : LoaderCfg) (zip : Zip)
    (system machine osName : Str) (dest : Str) (destExisting : List Str)
    (failIfExists : Bool) (variant : Option Str) :
    Except PlugErr Str × List FxOp :=
  match extractChecks ext cfg zip system machine variant with
  | .error e => (.error e, [])
  | .ok (libFilename, libData) =>
    if failIfExists ∧ destExisting.contains libFilename then
      (.error (.fileExists libFilename), [])
    else
      (.ok libFilename,
       [.mkdirP dest, .writeFile dest libFilename libData] ++
         (if osName = pyS "nt" then [] else [.chmodX dest libFilename]))

/-- Embedding of `BundleLoader.extract_library` (safe mode): bundle
existence check (`none` models a missing bundle file), then the internal
extraction with `fail_if_exists=True` into the caller's directory. -/
def extract_library (ext : Ext) (cfg : LoaderCfg) (zip : Option Zip)
    (system machine osName : Str) (dest : Str) (destExisting : List Str) :
    Except PlugErr Str × List FxOp :=
  match zip with
  | none => (.error .bundleNotFound, [])
  | some z =>
    extractLibraryInternal ext cfg z system machine osName dest destExisting true none

/-- Embedding of `BundleLoader.extract_library_to_temp` (ephemeral mode):
after the bundle existence check, `mkdtemp` creates the fresh directory
`tempDir` and the internal extraction runs into it with
`fail_if_exists=False`.  The source wraps nothing in a cleanup handler:
on failure the temp directory is left behind. -/
def extract_library_to_temp (ext : Ext) (cfg : LoaderCfg) (zip : Option Zip)
    (system machine osName : Str) (tempDir : Str) :
    Except PlugErr Str × List FxOp :=
  match zip with
  | none => (.error .bundleNotFound, [])
  | some z =>
    let r := extractLibraryInternal ext cfg z system machine osName tempDir [] false none
    (r.1, .mkdtempD tempDir :: r.2)

/-- Embedding of `BundleLoader.load_with_config`: bundle existence check,
`mkdtemp`, internal extraction with `fail_if_exists=False`, then the
external native-plugin load (abstracted as `loadNative`); any failure
after `mkdtemp` triggers `shutil.rmtree` of the temp directory before
the error propagates. -/
def load_with_config (ext : Ext) (cfg : LoaderCfg) (zip : Option Zip)
    (system machine osName : Str) (tempDir : Str)
    (loadNative : Str → Str → Except PlugErr Nat) :
    Except PlugErr Nat × List FxOp :=
  match zip with
  | none => (.error .bundleNotFound, [])
  | some z =>
    match extractLibraryInternal ext cfg z system machine osName tempDir [] false none with
    | (.ok libFilename, fx) =>
      match loadNative tempDir libFilename with
      | .ok handle => (.ok handle, .mkdtempD tempDir :: fx)
      | .error e => (.error e, .mkdtempD tempDir :: (fx ++ [.rmtreeD tempDir]))
    | (.error e, fx) => (.error e, .mkdtempD tempDir :: (fx ++ [.rmtreeD tempDir]))

/-- The pure check phase of `BundleLoader.extract_schema`: load the
manifest, look the schema up by name, read its member and check its
checksum.  Signature verification is not involved. -/
def extractSchemaChecks (ext : Ext) (zip : Zip) (schemaName : Str) :
    Except PlugErr Bytes :=
  match loadManifest ext zip with
  | .error e => .error e
  | .ok manifest =>
    match lookupA manifest.schemas schemaName with
    | none => .error (.schemaNotFound schemaName)
    | some schemaInfo =>
      match readZipEntry zip schemaInfo.path with
      | .error e => .error e
      | .ok schemaData =>
        if ¬ verifyChecksum ext.sha256hex schemaData schemaInfo.checksum then
          .error (.schemaChecksumMismatch schemaName)
        else .ok schemaData

/-- Embedding of `BundleLoader.extract_schema`: the check phase followed
by a single write of `dest_dir / schema_name` (no existence check, no
mkdir, no chmod in the source). -/
def extract_schema (ext : Ext) (zip : Zip) (schemaName : Str) (dest : Str) :
    Except PlugErr Str × List FxOp :=
  match extractSchemaChecks ext zip schemaName with
  | .error e => (.error e, [])
  | .ok schemaData => (.ok schemaName, [.writeFile dest schemaName schemaData])

/-- The manifest value `from_dict` produces from `dMin`. -/
def mMin : BundleManifest :=
  { bundle_version := pyS "2.0"
    plugin_name := pyS "demo"
    plugin_version := pyS "1.0"
    platforms := []
    public_key := none
    plugin_info := some
      { name := pyS "demo", version := pyS "1.0", description := none,
        authors := [], license := none, repository := none }
    schemas := []
    build_info := none
    sbom := none
    schema_checksum := none
    notices := none
    bridges := none }

/-- Success test of an `Except` outcome. -/
def isOkE {α : Type} : Except PlugErr α → Bool
  | .ok _ => true
  | .error _ => false

/-! ## Concrete fixtures

Closed inputs used by counterexamples and witnesses: toy external
primitives (a constant digest, table-driven base64 and JSON decoding)
and small manifests exercising the pipeline. -/

/-- Toy digest value returned by the fixture hash. -/
def shaD0 : Str := pyS "d0"

/-- Fixture manifest: one platform with legacy flat fields, a correct
checksum, and a non-empty variants map that lacks a `release` variant. -/
def m0json : JValue := .jobj
  [(pyS "bundle_version", .jstr (pyS "2.0")),
   (pyS "plugin", .jobj
     [(pyS "name", .jstr (pyS "demo")), (pyS "version", .jstr (pyS "1.0"))]),
   (pyS "platforms", .jobj
     [(pyS "linux-x86_64", .jobj
       [(pyS "library", .jstr (pyS "lib/legacy.so")),
        (pyS "checksum", .jstr (pyS "sha256:d0")),
        (pyS "variants", .jobj
          [(pyS "debug", .jobj
            [(pyS "library", .jstr (pyS "lib/debug.so")),
             (pyS "checksum", .jstr (pyS "sha256:bb"))])])])])]

/-- Fixture manifest: like `m0json` but with a checksum that cannot match
the fixture digest. -/
def m1json : JValue := .jobj
  [(pyS "bundle_version", .jstr (pyS "2.0")),
   (pyS "plugin", .jobj
     [(pyS "name", .jstr (pyS "demo")), (pyS "version", .jstr (pyS "1.0"))]),
   (pyS "platforms", .jobj
     [(pyS "linux-x86_64", .jobj
       [(pyS "library", .jstr (pyS "lib/legacy.so")),
        (pyS "checksum", .jstr (pyS "sha256:ff"))])])]

/-- Fixture manifest: one schema entry with a correct checksum. -/
def m2json : JValue := .jobj
  [(pyS "bundle_version", .jstr (pyS "2.0")),
   (pyS "plugin", .jobj
     [(pyS "name", .jstr (pyS "demo")), (pyS "version", .jstr (pyS "1.0"))]),
   (pyS "schemas", .jobj
     [(pyS "api.h", .jobj
       [(pyS "path", .jstr (pyS "schemas/api.h")),
        (pyS "checksum", .jstr (pyS "sha256:d0"))])])]

/-- Fixture manifest: a platform entry and a schema entry both of which
declare no checksum field at all. -/
def m3json : JValue := .jobj
  [(pyS "bundle_version", .jstr (pyS "2.0")),
   (pyS "plugin", .jobj
     [(pyS "name", .jstr (pyS "demo")), (pyS "version", .jstr (pyS "1.0"))]),
   (pyS "platforms", .jobj
     [(pyS "linux-x86_64", .jobj
       [(pyS "library", .jstr (pyS "lib/a.so"))])]),
   (pyS "schemas", .jobj
     [(pyS "s.h", .jobj [(pyS "path", .jstr (pyS "s.h"))])])]

/-- Fixture manifest: a platform entry whose variants map lacks the
default variant and whose legacy flat library field is absent. -/
def m4json : JValue := .jobj
  [(pyS "bundle_version", .jstr (pyS "2.0")),
   (pyS "plugin", .jobj
     [(pyS "name", .jstr (pyS "demo")), (pyS "version", .jstr (pyS "1.0"))]),
   (pyS "platforms", .jobj
     [(pyS "linux-x86_64", .jobj
       [(pyS "variants", .jobj
          [(pyS "debug", .jobj
            [(pyS "library", .jstr (pyS "lib/debug.so")),
             (pyS "checksum", .jstr (pyS "sha256:bb"))])])])])]

/-- Fixture external primitives for the extraction pipeline: a constant
digest and a JSON decoder keyed on the manifest bytes. -/
def ext0 : Ext where
  sha256hex := fun _ => shaD0
  blake2b512 := fun b => b
  ed25519Verify := fun _ _ _ => true
  b64decode := fun _ => none
  jsonParse := fun b =>
    if b = [0] then some m0json
    else if b = [1] then some m1json
    else if b = [2] then some m2json
    else if b = [3] then some m3json
    else if b = [4] then some m4json
    else none
  utf8Decode := fun _ => []

/-- Fixture loader configuration with signature verification disabled. -/
def cfg0 : LoaderCfg := { verify_signatures := false }

/-- Fixture bundle around `m0json`. -/
def zip0 : Zip := [(manifestName, [0]), (pyS "lib/legacy.so", [1, 2, 3])]

/-- Fixture bundle around `m1json`. -/
def zip1 : Zip := [(manifestName, [1]), (pyS "lib/legacy.so", [1, 2, 3])]

/-- Fixture bundle around `m2json`. -/
def zip2 : Zip := [(manifestName, [2]), (pyS "schemas/api.h", [9])]

/-- Fixture bundle around `m3json`. -/
def zip3 : Zip := [(manifestName, [3]), (pyS "lib/a.so", [7]), (pyS "s.h", [8])]

/-- Fixture bundle around `m4json`. -/
def zip4 : Zip := [(manifestName, [4])]

/-- The platform entry `from_dict` produces from `m0json`. -/
def platE : PlatformInfo :=
  { library := pyS "lib/legacy.so"
    checksum := pyS "sha256:d0"
    default_variant := none
    variants := [(pyS "debug",
      { library := pyS "lib/debug.so", checksum := pyS "sha256:bb" })] }

/-- The manifest value `from_dict` produces from `m0json`. -/
def m0man : BundleManifest :=
  { bundle_version := pyS "2.0"
    plugin_name := pyS "demo"
    plugin_version := pyS "1.0"
    platforms := [(pyS "linux-x86_64", platE)]
    public_key := none
    plugin_info := some
      { name := pyS "demo", version := pyS "1.0", description := none,
        authors := [], license := none, repository := none }
    schemas := []
    build_info := none
    sbom := none
    schema_checksum := none
    notices := none
    bridges := none }

/-- The platform entry `from_dict` produces from `m4json`: empty legacy
fields, one `debug` variant. -/
def plat4 : PlatformInfo :=
  { library := []
    checksum := []
    default_variant := none
    variants := [(pyS "debug",
      { library := pyS "lib/debug.so", checksum := pyS "sha256:bb" })] }

/-- The manifest value `from_dict` produces from `m4json`. -/
def m4man : BundleManifest :=
  { bundle_version := pyS "2.0"
    plugin_name := pyS "demo"
    plugin_version := pyS "1.0"
    platforms := [(pyS "linux-x86_64", plat4)]
    public_key := none
    plugin_info := some
      { name := pyS "demo", version := pyS "1.0", description := none,
        authors := [], license := none, repository := none }
    schemas := []
    build_info := none
    sbom := none
    schema_checksum := none
    notices := none
    bridges := none }

/-- The platform entry `from_dict` produces from `m1json`. -/
def plat1 : PlatformInfo :=
  { library := pyS "lib/legacy.so"
    checksum := pyS "sha256:ff"
    default_variant := none
    variants := [] }

/-- The manifest value `from_dict` produces from `m1json`. -/
def m1man : BundleManifest :=
  { bundle_version := pyS "2.0"
    plugin_name := pyS "demo"
    plugin_version := pyS "1.0"
    platforms := [(pyS "linux-x86_64", plat1)]
    public_key := none
    plugin_info := some
      { name := pyS "demo", version := pyS "1.0", description := none,
        authors := [], license := none, repository := none }
    schemas := []
    build_info := none
    sbom := none
    schema_checksum := none
    notices := none
    bridges := none }

/-- The schema entry `from_dict` produces from `m2json`. -/
def si2 : SchemaInfo :=
  { path := pyS "schemas/api.h", checksum := pyS "sha256:d0",
    format := none, description := none }

/-- The manifest value `from_dict` produces from `m2json`. -/
def m2man : BundleManifest :=
  { bundle_version := pyS "2.0"
    plugin_name := pyS "demo"
    plugin_version := pyS "1.0"
    platforms := []
    public_key := none
    plugin_info := some
      { name := pyS "demo", version := pyS "1.0", description := none,
        authors := [], license := none, repository := none }
    schemas := [(pyS "api.h", si2)]
    build_info := none
    sbom := none
    schema_checksum := none
    notices := none
    bridges := none }

/-- Fixture temp-directory name. -/
def tmp0 : Str := pyS "/tmp/rustbridge-x1"

/-- Fixture key id A. -/
def kidA : Bytes := [1, 1, 1, 1, 1, 1, 1, 1]

/-- Fixture key id B, distinct from `kidA`. -/
def kidB : Bytes := [2, 2, 2, 2, 2, 2, 2, 2]

/-- Fixture 32-byte Ed25519 public key. -/
def key32 : Bytes := List.replicate 32 7

/-- Fixture 64-byte Ed25519 signature. -/
def sig64 : Bytes := List.replicate 64 3

/-- Fixture minisign public key token decoding to a well-formed key. -/
def pkGood : Str := pyS "PKGOOD"

/-- Fixture signature block with an `ED` (prehashed) tag and key id A. -/
def sigStrED : Str := pyS "untrusted comment: c\nS1"

/-- Fixture signature block with an `Ed` (legacy) tag and key id A. -/
def sigStrEd : Str := pyS "untrusted comment: c\nS2"

/-- Fixture signature block with an `ED` tag and key id B. -/
def sigStrKidB : Str := pyS "untrusted comment: c\nS3"

/-- Fixture signature block whose payload has a wrong length. -/
def sigStrShort : Str := pyS "untrusted comment: c\nS4"

/-- Fixture signature block whose payload has an unknown tag. -/
def sigStrBadAlg : Str := pyS "untrusted comment: c\nS5"

/-- Fixture public key token decoding to a wrong length. -/
def pkShort : Str := pyS "PKSHORT"

/-- Fixture public key token decoding to an unknown tag. -/
def pkBadAlg : Str := pyS "PKBADALG"

/-- Fixture external primitives for minisign: table-driven base64,
BLAKE2b collapsing to `[42, 42]`, and Ed25519 accepting exactly the
message `[42, 42]`. -/
def extB64 : Ext where
  sha256hex := fun _ => shaD0
  blake2b512 := fun _ => [42, 42]
  ed25519Verify := fun _ msg _ => msg == [42, 42]
  b64decode := fun s =>
    if s = pkGood then some (pkAlgId ++ (kidA ++ key32))
    else if s = pyS "S1" then some (sigAlgId ++ (kidA ++ sig64))
    else if s = pyS "S2" then some (pkAlgId ++ (kidA ++ sig64))
    else if s = pyS "S3" then some (sigAlgId ++ (kidB ++ sig64))
    else if s = pyS "S4" then some [5]
    else if s = pyS "S5" then some ([9, 9] ++ (kidA ++ sig64))
    else if s = pkShort then some [1, 2, 3]
    else if s = pkBadAlg then some ([0, 0] ++ (kidA ++ key32))
    else none
  jsonParse := fun _ => none
  utf8Decode := fun _ => []

/-- The manifest value `from_dict` produces from `m3json`. -/
def m3 : BundleManifest :=
  { bundle_version := pyS "2.0"
    plugin_name := pyS "demo"
    plugin_version := pyS "1.0"
    platforms := [(pyS "linux-x86_64",
      { library := pyS "lib/a.so", checksum := [], default_variant := none, variants := [] })]
    public_key := none
    plugin_info := some
      { name := pyS "demo", version := pyS "1.0", description := none,
        authors := [], license := none, repository := none }
    schemas := [(pyS "s.h",
      { path := pyS "s.h", checksum := [], format := none, description := none })]
    build_info := none
    sbom := none
    schema_checksum := none
    notices := none
    bridges := none }

/-- The platform entry of `m3`. -/
def plat3 : PlatformInfo :=
  { library := pyS "lib/a.so", checksum := [], default_variant := none, variants := [] }

/-- The schema entry of `m3`. -/
def si3 : SchemaInfo :=
  { path := pyS "s.h", checksum := [], format := none, description := none }

/-- Fixture dictionary for a manifest missing `plugin.name`. -/
def dNoName : List (Str × JValue) := [(pyS "bundle_version", .jstr (pyS "2.0"))]

/-- Fixture dictionary for a manifest missing `plugin.version`. -/
def dNoVer : List (Str × JValue) :=
  [(pyS "bundle_version", .jstr (pyS "2.0")),
   (pyS "plugin", .jobj [(pyS "name", .jstr (pyS "demo"))])]

/-- Fixture dictionary with only the required fields present. -/
def dMin : List (Str × JValue) :=
  [(pyS "bundle_version", .jstr (pyS "2.0")),
   (pyS "plugin", .jobj
     [(pyS "name", .jstr (pyS "demo")), (pyS "version", .jstr (pyS "1.0"))])]

/-! ## Helper lemmas -/

lemma pyLower_append (a b : Str) : pyLower (a ++ b) = pyLower a ++ pyLower b :=
  List.map_append _ _ _

lemma verifyChecksum_tagged (sha : Bytes → Str) (d : Bytes) (p rest : Str)
    (hp : pyLower p = shaTag) :
    verifyChecksum sha d (p ++ rest) = (pyLower (sha d) == pyLower rest) := by
  have hlen : p.length = 7 := by
    have h := congrArg List.length hp
    simpa [pyLower, shaTag, pyS] using h
  have hpre : shaTag.isPrefixOf (pyLower (p ++ rest)) = true := by
    rw [pyLower_append, hp]
    exact List.isPrefixOf_iff_prefix.mpr (List.prefix_append _ _)
  simp [verifyChecksum, hpre, List.drop_left' hlen]

lemma verifyChecksum_ne (sha : Bytes → Str) (d : Bytes) (e : Str)
    (hne : pyLower (stripShaTag e) ≠ pyLower (sha d)) :
    verifyChecksum sha d e = false := by
  unfold verifyChecksum
  unfold stripShaTag at hne
  by_cases hc : shaTag.isPrefixOf (pyLower e) = true
  · simp only [hc, if_true] at hne ⊢
    exact beq_eq_false_iff_ne.mpr fun h => hne h.symm
  · rw [Bool.not_eq_true] at hc
    simp only [hc, Bool.false_eq_true, if_false] at hne ⊢
    exact beq_eq_false_iff_ne.mpr fun h => hne h.symm

lemma verifyChecksum_emptyExpected (sha : Bytes → Str) (d : Bytes)
    (h : sha d ≠ []) : verifyChecksum sha d [] = false := by
  apply verifyChecksum_ne
  intro hx
  apply h
  have : pyLower (sha d) = [] := by
    have hstrip : stripShaTag ([] : Str) = [] := by decide
    rw [hstrip] at hx
    exact hx.symm
  simpa [pyLower] using this

lemma verifyChecksum_tagOnly (sha : Bytes → Str) (d : Bytes)
    (h : sha d ≠ []) : verifyChecksum sha d shaTag = false := by
  apply verifyChecksum_ne
  intro hx
  apply h
  have hstrip : stripShaTag shaTag = [] := by decide
  rw [hstrip] at hx
  have : pyLower (sha d) = [] := hx.symm
  simpa [pyLower] using this

lemma extractChecks_ok_checksum (ext : Ext) (cfg : LoaderCfg) (zip : Zip)
    (system machine : Str) (variant : Option Str) (m : BundleManifest)
    (pinfo : PlatformInfo) (f : Str) (d : Bytes)
    (hm : loadManifest ext zip = .ok m)
    (hp : m.get_platform (getCurrentPlatform system machine) = some pinfo)
    (h : extractChecks ext cfg zip system machine variant = .ok (f, d)) :
    verifyChecksum ext.sha256hex d
      (pinfo.get_checksum (pyVariantOr variant pinfo.get_default_variant)) = true := by
  simp only [extractChecks, hm, hp] at h
  split at h
  · exact absurd h (by simp)
  · split at h
    · exact absurd h (by simp)
    · split at h
      · exact absurd h (by simp)
      · split at h
        · exact absurd h (by simp)
        · rename_i hver
          split at h
          · exact absurd h (by simp)
          · rw [Except.ok.injEq, Prod.mk.injEq] at h
            rw [← h.2]
            exact not_not.mp hver

lemma extractChecks_mismatch (ext : Ext) (cfg : LoaderCfg) (zip : Zip)
    (system machine : Str) (variant : Option Str) (m : BundleManifest)
    (pinfo : PlatformInfo) (libData : Bytes)
    (hm : loadManifest ext zip = .ok m)
    (hsig : cfg.verify_signatures = true →
      verifyManifestSignature ext cfg zip m = .ok ())
    (hp : m.get_platform (getCurrentPlatform system machine) = some pinfo)
    (hlib : pinfo.get_library (pyVariantOr variant pinfo.get_default_variant) ≠ [])
    (hread : readZipEntry zip
      (pinfo.get_library (pyVariantOr variant pinfo.get_default_variant)) = .ok libData)
    (hver : verifyChecksum ext.sha256hex libData
      (pinfo.get_checksum (pyVariantOr variant pinfo.get_default_variant)) = false) :
    extractChecks ext cfg zip system machine variant =
      .error (.checksumMismatch
        (pinfo.get_library (pyVariantOr variant pinfo.get_default_variant))) := by
  have hlibe : (pinfo.get_library (pyVariantOr variant pinfo.get_default_variant)).isEmpty
      = false := by
    simpa [List.isEmpty_iff] using hlib
  by_cases hv : cfg.verify_signatures
  · simp [extractChecks, hm, hsig hv, hp, hv, hlibe, hread, hver]
  · simp [extractChecks, hm, hp, hv, hlibe, hread, hver]

lemma extractSchemaChecks_ok_checksum (ext : Ext) (zip : Zip) (schemaName : Str)
    (m : BundleManifest) (si : SchemaInfo) (d : Bytes)
    (hm : loadManifest ext zip = .ok m)
    (hs : lookupA m.schemas schemaName = some si)
    (h : extractSchemaChecks ext zip schemaName = .ok d) :
    verifyChecksum ext.sha256hex d si.checksum = true := by
  simp only [extractSchemaChecks, hm, hs] at h
  split at h
  · exact absurd h (by simp)
  · split at h
    · exact absurd h (by simp)
    · rename_i hver
      rw [Except.ok.injEq] at h
      rw [← h]
      exact not_not.mp hver

lemma extractSchemaChecks_mismatch (ext : Ext) (zip : Zip) (schemaName : Str)
    (m : BundleManifest) (si : SchemaInfo) (d : Bytes)
    (hm : loadManifest ext zip = .ok m)
    (hs : lookupA m.schemas schemaName = some si)
    (hread : readZipEntry zip si.path = .ok d)
    (hver : verifyChecksum ext.sha256hex d si.checksum = false) :
    extractSchemaChecks ext zip schemaName = .error (.schemaChecksumMismatch schemaName) := by
  simp [extractSchemaChecks, hm, hs, hread, hver]

/-! ## Claim theorems -/

/-- C3: for every byte string `d` (empty included) and every hash
function standing for SHA-256, checksum verification accepts
`sha256:` + hex(sha256(d)) — with the tag detected case-insensitively
(any spelling of the tag lowering to `sha256:` is stripped) and both
sides lowercased — and rejects every expected string whose
tag-stripped, lowercased remainder differs from the lowercased digest.
The function is a pure Lean function, hence deterministic. -/
theorem C3_verify_checksum (sha : Bytes → Str) (d : Bytes) (p rest e : Str) :
    (pyLower p = shaTag →
      verifyChecksum sha d (p ++ rest) = (pyLower (sha d) == pyLower rest)) ∧
    verifyChecksum sha d (shaTag ++ sha d) = true ∧
    (pyLower (stripShaTag e) ≠ pyLower (sha d) → verifyChecksum sha d e = false) := by
  refine ⟨fun hp => verifyChecksum_tagged sha d p rest hp, ?_, fun hne => verifyChecksum_ne sha d e hne⟩
  rw [verifyChecksum_tagged sha d shaTag (sha d) (by decide)]
  simp

/-- Witness for C3 at concrete inputs: an uppercase tag is stripped, the
round trip accepts, and a differing digest is rejected. -/
theorem C3_verify_checksum_witness :
    pyLower (pyS "SHA256:") = shaTag ∧
    verifyChecksum ext0.sha256hex [1, 2, 3] (pyS "SHA256:" ++ shaD0) = true ∧
    verifyChecksum ext0.sha256hex [1, 2, 3] (shaTag ++ ext0.sha256hex [1, 2, 3]) = true ∧
    pyLower (stripShaTag (pyS "ff")) ≠ pyLower (ext0.sha256hex [1, 2, 3]) ∧
    verifyChecksum ext0.sha256hex [1, 2, 3] (pyS "ff") = false := by
  refine ⟨by decide, ?_, (C3_verify_checksum ext0.sha256hex [1, 2, 3] [] [] []).2.1,
    by decide, (C3_verify_checksum ext0.sha256hex [1, 2, 3] [] [] (pyS "ff")).2.2 (by decide)⟩
  rw [(C3_verify_checksum ext0.sha256hex [1, 2, 3] (pyS "SHA256:") shaD0 []).1 (by decide)]
  decide

/-- C10: an empty expected checksum (or the bare `sha256:` tag) never
verifies as long as the digest is non-empty; `from_dict` defaults an
absent `checksum` field of a platform, variant or schema entry to the
empty string; consequently a resolved library or schema whose declared
checksum is empty can never be extracted successfully. -/
theorem C10_empty_checksum_never_passes (sha : Bytes → Str) (d : Bytes)
    (fields : List (Str × JValue)) :
    (sha d ≠ [] → verifyChecksum sha d [] = false) ∧
    (sha d ≠ [] → verifyChecksum sha d shaTag = false) ∧
    (lookupA fields (pyS "checksum") = none →
      (parsePlatformInfo (.jobj fields)).checksum = [] ∧
      (parseVariantInfo (.jobj fields)).checksum = [] ∧
      (parseSchemaInfo (.jobj fields)).checksum = []) ∧
    (∀ (ext : Ext) (cfg : LoaderCfg) (zip : Zip) (system machine : Str)
        (variant : Option Str) (m : BundleManifest) (pinfo : PlatformInfo),
      (∀ b, ext.sha256hex b ≠ []) →
      loadManifest ext zip = .ok m →
      m.get_platform (getCurrentPlatform system machine) = some pinfo →
      pinfo.get_checksum (pyVariantOr variant pinfo.get_default_variant) = [] →
      ∀ x, extractChecks ext cfg zip system machine variant ≠ .ok x) ∧
    (∀ (ext : Ext) (zip : Zip) (schemaName : Str) (m : BundleManifest) (si : SchemaInfo),
      (∀ b, ext.sha256hex b ≠ []) →
      loadManifest ext zip = .ok m →
      lookupA m.schemas schemaName = some si →
      si.checksum = [] →
      ∀ x, extractSchemaChecks ext zip schemaName ≠ .ok x) := by
  refine ⟨fun h => verifyChecksum_emptyExpected sha d h,
    fun h => verifyChecksum_tagOnly sha d h, fun h => ?_, ?_, ?_⟩
  · simp only [parsePlatformInfo, parseVariantInfo, parseSchemaInfo, JValue.items, h, strOfO,
      and_self]
  · intro ext cfg zip sys mach variant m pinfo hne hm hp hcs x hok
    obtain ⟨f, dd⟩ := x
    have hver := extractChecks_ok_checksum ext cfg zip sys mach variant m pinfo f dd hm hp hok
    rw [hcs] at hver
    rw [verifyChecksum_emptyExpected ext.sha256hex dd (hne dd)] at hver
    exact Bool.false_ne_true hver
  · intro ext zip name m si hne hm hs hcs x hok
    have hver := extractSchemaChecks_ok_checksum ext zip name m si x hm hs hok
    rw [hcs] at hver
    rw [verifyChecksum_emptyExpected ext.sha256hex x (hne x)] at hver
    exact Bool.false_ne_true hver

/-- Witness for C10 at concrete inputs: the fixture bundle `zip3` whose
platform and schema entries declare no checksum field cannot be
extracted. -/
theorem C10_empty_checksum_never_passes_witness :
    verifyChecksum ext0.sha256hex [7] [] = false ∧
    (parsePlatformInfo (.jobj [(pyS "library", .jstr (pyS "lib/a.so"))])).checksum = [] ∧
    (∀ x, extractChecks ext0 cfg0 zip3 (pyS "Linux") (pyS "x86_64") none ≠ .ok x) ∧
    (∀ x, extractSchemaChecks ext0 zip3 (pyS "s.h") ≠ .ok x) := by
  have hth := C10_empty_checksum_never_passes ext0.sha256hex [7]
    [(pyS "library", .jstr (pyS "lib/a.so"))]
  refine ⟨hth.1 (by decide), (hth.2.2.1 rfl).1, ?_, ?_⟩
  · exact hth.2.2.2.1 ext0 cfg0 zip3 (pyS "Linux") (pyS "x86_64") none m3 plat3
      (fun b => by simp [ext0, shaD0, pyS]) rfl rfl rfl
  · exact hth.2.2.2.2 ext0 zip3 (pyS "s.h") m3 si3
      (fun b => by simp [ext0, shaD0, pyS]) rfl rfl rfl

/-- C4: whenever both inputs parse and the signature's embedded key id
differs from the public key's key id, verification returns `false`
(never an error), and it does so for every possible Ed25519 primitive —
i.e. without performing Ed25519 verification. -/
theorem C4_keyid_mismatch_returns_false (ext : Ext) (ed : Bytes → Bytes → Bytes → Bool)
    (publicKeyBase64 : Str) (data : Bytes) (signatureString : Str)
    (pk keyId sigKeyId sig : Bytes) (pre : Bool)
    (hpk : parsePublicKey ext publicKeyBase64 = .ok (pk, keyId))
    (hsig : parseSignature ext signatureString = .ok (sigKeyId, sig, pre))
    (hne : sigKeyId ≠ keyId) :
    minisignVerify { ext with ed25519Verify := ed } publicKeyBase64 data signatureString =
      .ok false := by
  have hpk' : parsePublicKey { ext with ed25519Verify := ed } publicKeyBase64 =
      .ok (pk, keyId) := hpk
  have hsig' : parseSignature { ext with ed25519Verify := ed } signatureString =
      .ok (sigKeyId, sig, pre) := hsig
  simp [minisignVerify, hpk', hsig', hne]

/-- Witness for C4: the fixture signature carries key id B while the
fixture public key carries key id A; verification returns `false` under
both a constantly-accepting and a constantly-rejecting Ed25519. -/
theorem C4_keyid_mismatch_returns_false_witness :
    parsePublicKey extB64 pkGood = .ok (key32, kidA) ∧
    parseSignature extB64 sigStrKidB = .ok (kidB, sig64, true) ∧
    kidB ≠ kidA ∧
    minisignVerify { extB64 with ed25519Verify := fun _ _ _ => true }
      pkGood [5] sigStrKidB = .ok false ∧
    minisignVerify { extB64 with ed25519Verify := fun _ _ _ => false }
      pkGood [5] sigStrKidB = .ok false := by
  refine ⟨rfl, rfl, by decide, ?_, ?_⟩
  · exact C4_keyid_mismatch_returns_false extB64 (fun _ _ _ => true) pkGood [5]
      sigStrKidB key32 kidA kidB sig64 true rfl rfl (by decide)
  · exact C4_keyid_mismatch_returns_false extB64 (fun _ _ _ => false) pkGood [5]
      sigStrKidB key32 kidA kidB sig64 true rfl rfl (by decide)

/-- C5: a decoded public key whose length is not 42 or whose tag is not
`Ed`, and a decoded signature whose length is not 74 or whose tag is
neither `ED` nor `Ed`, each raise the structured format error carrying
the expected versus actual figure; verification propagates these errors
rather than returning `false`. -/
theorem C5_malformed_raises_format_error :
    (∀ (ext : Ext) (s : Str) (bs : Bytes),
      ext.b64decode (pyStrip s) = some bs → bs.length ≠ 42 →
      parsePublicKey ext s = .error (.invalidKeyLength 42 bs.length)) ∧
    (∀ (ext : Ext) (s : Str) (bs : Bytes),
      ext.b64decode (pyStrip s) = some bs → bs.length = 42 → bs.take 2 ≠ pkAlgId →
      parsePublicKey ext s = .error (.invalidKeyAlgo (bs.take 2))) ∧
    (∀ (ext : Ext) (s l1 l2 : Str) (rest : List Str) (bs : Bytes),
      pySplit (pyStrip s) '\n' = l1 :: l2 :: rest →
      ext.b64decode (pyStrip l2) = some bs → bs.length ≠ 74 →
      parseSignature ext s = .error (.invalidSigLength 74 bs.length)) ∧
    (∀ (ext : Ext) (s l1 l2 : Str) (rest : List Str) (bs : Bytes),
      pySplit (pyStrip s) '\n' = l1 :: l2 :: rest →
      ext.b64decode (pyStrip l2) = some bs → bs.length = 74 →
      bs.take 2 ≠ sigAlgId → bs.take 2 ≠ pkAlgId →
      parseSignature ext s = .error (.invalidSigAlgo (bs.take 2))) ∧
    (∀ (ext : Ext) (publicKeyBase64 : Str) (data : Bytes) (signatureString : Str)
        (e : PlugErr),
      parsePublicKey ext publicKeyBase64 = .error e →
      minisignVerify ext publicKeyBase64 data signatureString = .error e) ∧
    (∀ (ext : Ext) (publicKeyBase64 : Str) (data : Bytes) (signatureString : Str)
        (pk keyId : Bytes) (e : PlugErr),
      parsePublicKey ext publicKeyBase64 = .ok (pk, keyId) →
      parseSignature ext signatureString = .error e →
      minisignVerify ext publicKeyBase64 data signatureString = .error e) := by
  refine ⟨?_, ?_, ?_, ?_, ?_, ?_⟩
  · intro ext s bs hdec hlen
    simp [parsePublicKey, hdec, hlen]
  · intro ext s bs hdec hlen htag
    simp [parsePublicKey, hdec, hlen, htag]
  · intro ext s l1 l2 rest bs hsplit hdec hlen
    unfold parseSignature
    rw [hsplit]
    simp [hdec, hlen]
  · intro ext s l1 l2 rest bs hsplit hdec hlen htag1 htag2
    unfold parseSignature
    rw [hsplit]
    simp [hdec, hlen, htag1, htag2]
  · intro ext pkB64 data sigStr e hpk
    simp [minisignVerify, hpk]
  · intro ext pkB64 data sigStr pk keyId e hpk hsig
    simp [minisignVerify, hpk, hsig]

/-- Witness for C5: fixture keys and signatures with a wrong length and a
wrong tag produce the corresponding structured errors, and verification
propagates them. -/
theorem C5_malformed_raises_format_error_witness :
    parsePublicKey extB64 pkShort = .error (.invalidKeyLength 42 3) ∧
    parsePublicKey extB64 pkBadAlg = .error (.invalidKeyAlgo [0, 0]) ∧
    parseSignature extB64 sigStrShort = .error (.invalidSigLength 74 1) ∧
    parseSignature extB64 sigStrBadAlg = .error (.invalidSigAlgo [9, 9]) ∧
    minisignVerify extB64 pkShort [1] sigStrED = .error (.invalidKeyLength 42 3) ∧
    minisignVerify extB64 pkGood [1] sigStrShort = .error (.invalidSigLength 74 1) := by
  have hth := C5_malformed_raises_format_error
  have h1 : parsePublicKey extB64 pkShort = .error (.invalidKeyLength 42 3) :=
    hth.1 extB64 pkShort [1, 2, 3] rfl (by decide)
  have h2 : parsePublicKey extB64 pkBadAlg = .error (.invalidKeyAlgo [0, 0]) := by
    have h := hth.2.1 extB64 pkBadAlg ([0, 0] ++ (kidA ++ key32)) rfl (by decide) (by decide)
    simpa using h
  have h3 : parseSignature extB64 sigStrShort = .error (.invalidSigLength 74 1) :=
    hth.2.2.1 extB64 sigStrShort (pyS "untrusted comment: c") (pyS "S4") [] [5]
      rfl rfl (by decide)
  have h4 : parseSignature extB64 sigStrBadAlg = .error (.invalidSigAlgo [9, 9]) := by
    have h := hth.2.2.2.1 extB64 sigStrBadAlg (pyS "untrusted comment: c") (pyS "S5") []
      ([9, 9] ++ (kidA ++ sig64)) rfl rfl (by decide) (by decide) (by decide)
    simpa using h
  refine ⟨h1, h2, h3, h4, ?_, ?_⟩
  · exact hth.2.2.2.2.1 extB64 pkShort [1] sigStrED (.invalidKeyLength 42 3) h1
  · exact hth.2.2.2.2.2 extB64 pkGood [1] sigStrShort key32 kidA
      (.invalidSigLength 74 1) rfl h3

/-- C6: the `ED` tag marks a prehashed signature and `Ed` a legacy one,
and with matching key ids verification returns exactly the outcome of
the Ed25519 primitive applied to the BLAKE2b-512 digest (prehashed) or
the raw data (legacy) — `false`, not an exception, for a well-formed but
cryptographically invalid signature. -/
theorem C6_prehash_dispatch :
    (∀ (ext : Ext) (s l1 l2 : Str) (rest : List Str) (kid sg : Bytes),
      pySplit (pyStrip s) '\n' = l1 :: l2 :: rest →
      ext.b64decode (pyStrip l2) = some (sigAlgId ++ (kid ++ sg)) →
      kid.length = 8 → sg.length = 64 →
      parseSignature ext s = .ok (kid, sg, true)) ∧
    (∀ (ext : Ext) (s l1 l2 : Str) (rest : List Str) (kid sg : Bytes),
      pySplit (pyStrip s) '\n' = l1 :: l2 :: rest →
      ext.b64decode (pyStrip l2) = some (pkAlgId ++ (kid ++ sg)) →
      kid.length = 8 → sg.length = 64 →
      parseSignature ext s = .ok (kid, sg, false)) ∧
    (∀ (ext : Ext) (publicKeyBase64 : Str) (data : Bytes) (signatureString : Str)
        (pk keyId sig : Bytes) (pre : Bool),
      parsePublicKey ext publicKeyBase64 = .ok (pk, keyId) →
      parseSignature ext signatureString = .ok (keyId, sig, pre) →
      minisignVerify ext publicKeyBase64 data signatureString =
        .ok (ext.ed25519Verify pk (if pre then ext.blake2b512 data else data) sig)) := by
  refine ⟨?_, ?_, ?_⟩
  · intro ext s l1 l2 rest kid sg hsplit hdec hk hs
    unfold parseSignature
    rw [hsplit]
    have hlen : (sigAlgId ++ (kid ++ sg)).length = 74 := by
      simp [sigAlgId, List.length_append, hk, hs]
    have htake : (sigAlgId ++ (kid ++ sg)).take 2 = sigAlgId := List.take_left' rfl
    have hkid : ((sigAlgId ++ (kid ++ sg)).drop 2).take 8 = kid := by
      show (kid ++ sg).take 8 = kid
      exact List.take_left' hk
    have hsg : (sigAlgId ++ (kid ++ sg)).drop 10 = sg := by
      show (kid ++ sg).drop 8 = sg
      exact List.drop_left' hk
    simp [hdec, hlen, htake, hkid, hsg]
  · intro ext s l1 l2 rest kid sg hsplit hdec hk hs
    unfold parseSignature
    rw [hsplit]
    have hlen : (pkAlgId ++ (kid ++ sg)).length = 74 := by
      simp [pkAlgId, List.length_append, hk, hs]
    have htake : (pkAlgId ++ (kid ++ sg)).take 2 = pkAlgId := List.take_left' rfl
    have htag : (pkAlgId ++ (kid ++ sg)).take 2 ≠ sigAlgId := by
      rw [htake]
      decide
    have hkid : ((pkAlgId ++ (kid ++ sg)).drop 2).take 8 = kid := by
      show (kid ++ sg).take 8 = kid
      exact List.take_left' hk
    have hsg : (pkAlgId ++ (kid ++ sg)).drop 10 = sg := by
      show (kid ++ sg).drop 8 = sg
      exact List.drop_left' hk
    simp [hdec, hlen, htake, htag, hkid, hsg]
    decide
  · intro ext pkB64 data sigStr pk keyId sig pre hpk hsig
    simp [minisignVerify, hpk, hsig]

/-- Witness for C6: the fixture Ed25519 accepts exactly the message
`[42, 42]`, which is the fixture BLAKE2b digest; the prehashed signature
verifies for any data, the legacy one only when the raw data is the
accepted message. -/
theorem C6_prehash_dispatch_witness :
    parseSignature extB64 sigStrED = .ok (kidA, sig64, true) ∧
    parseSignature extB64 sigStrEd = .ok (kidA, sig64, false) ∧
    minisignVerify extB64 pkGood [9] sigStrED = .ok true ∧
    minisignVerify extB64 pkGood [9] sigStrEd = .ok false ∧
    minisignVerify extB64 pkGood [42, 42] sigStrEd = .ok true := by
  have hp1 : parseSignature extB64 sigStrED = .ok (kidA, sig64, true) :=
    C6_prehash_dispatch.1 extB64 sigStrED (pyS "untrusted comment: c") (pyS "S1") []
      kidA sig64 rfl rfl rfl rfl
  have hp2 : parseSignature extB64 sigStrEd = .ok (kidA, sig64, false) :=
    C6_prehash_dispatch.2.1 extB64 sigStrEd (pyS "untrusted comment: c") (pyS "S2") []
      kidA sig64 rfl rfl rfl rfl
  refine ⟨hp1, hp2, ?_, ?_, ?_⟩
  · rw [C6_prehash_dispatch.2.2 extB64 pkGood [9] sigStrED key32 kidA sig64 true rfl hp1]
    rfl
  · rw [C6_prehash_dispatch.2.2 extB64 pkGood [9] sigStrEd key32 kidA sig64 false rfl hp2]
    rfl
  · rw [C6_prehash_dispatch.2.2 extB64 pkGood [42, 42] sigStrEd key32 kidA sig64 false
      rfl hp2]
    rfl

/-- C8: a manifest missing `bundle_version`, `plugin.name` or
`plugin.version` fails with an error naming that field, checked in that
order; malformed JSON fails with the distinct parse error; and when the
required fields are present parsing succeeds, with every optional
section defaulting to empty or absent. -/
theorem C8_manifest_required_fields :
    (∀ (data : List (Str × JValue)),
      truthyO (lookupA data (pyS "bundle_version")) = false →
      from_dict data = .error (.missingField (pyS "bundle_version"))) ∧
    (∀ (data : List (Str × JValue)),
      truthyO (lookupA data (pyS "bundle_version")) = true →
      truthyO (lookupA (itemsO (lookupA data (pyS "plugin"))) (pyS "name")) = false →
      from_dict data = .error (.missingField (pyS "plugin.name"))) ∧
    (∀ (data : List (Str × JValue)),
      truthyO (lookupA data (pyS "bundle_version")) = true →
      truthyO (lookupA (itemsO (lookupA data (pyS "plugin"))) (pyS "name")) = true →
      truthyO (lookupA (itemsO (lookupA data (pyS "plugin"))) (pyS "version")) = false →
      from_dict data = .error (.missingField (pyS "plugin.version"))) ∧
    from_json none = .error .parseJson ∧
    (∀ (data : List (Str × JValue)),
      truthyO (lookupA data (pyS "bundle_version")) = true →
      truthyO (lookupA (itemsO (lookupA data (pyS "plugin"))) (pyS "name")) = true →
      truthyO (lookupA (itemsO (lookupA data (pyS "plugin"))) (pyS "version")) = true →
      isOkE (from_dict data) = true) ∧
    (∀ (data : List (Str × JValue)) (m : BundleManifest),
      lookupA data (pyS "platforms") = none →
      lookupA data (pyS "schemas") = none →
      lookupA data (pyS "build_info") = none →
      lookupA data (pyS "sbom") = none →
      lookupA data (pyS "bridges") = none →
      lookupA data (pyS "public_key") = none →
      from_dict data = .ok m →
      m.platforms = [] ∧ m.schemas = [] ∧ m.build_info = none ∧ m.sbom = none ∧
        m.bridges = none ∧ m.public_key = none) := by
  refine ⟨?_, ?_, ?_, rfl, ?_, ?_⟩
  · intro data h1
    simp [from_dict, h1]
  · intro data h1 h2
    simp [from_dict, h1, h2]
  · intro data h1 h2 h3
    simp [from_dict, h1, h2, h3]
  · intro data h1 h2 h3
    simp [from_dict, h1, h2, h3, isOkE]
  · intro data m h1 h2 h3 h4 h5 h6 hok
    simp only [from_dict, h1, h2, h3, h4, h5, h6, itemsO, List.map_nil, optStrOf] at hok
    split at hok
    · exact absurd hok (by simp)
    · split at hok
      · exact absurd hok (by simp)
      · split at hok
        · exact absurd hok (by simp)
        · rw [Except.ok.injEq] at hok
          rw [← hok]
          exact ⟨rfl, rfl, rfl, rfl, rfl, rfl⟩

/-- Witness for C8 at concrete dictionaries: each required field fails by
name in order, the empty dictionary failing on `bundle_version` first,
and the minimal dictionary parses with all optional sections defaulted. -/
theorem C8_manifest_required_fields_witness :
    from_dict [] = .error (.missingField (pyS "bundle_version")) ∧
    from_dict dNoName = .error (.missingField (pyS "plugin.name")) ∧
    from_dict dNoVer = .error (.missingField (pyS "plugin.version")) ∧
    from_json none = .error .parseJson ∧
    from_dict dMin = .ok mMin ∧
    mMin.platforms = [] ∧ mMin.schemas = [] ∧ mMin.build_info = none ∧
    mMin.sbom = none ∧ mMin.bridges = none ∧ mMin.public_key = none := by
  have hok : from_dict dMin = .ok mMin := rfl
  have hfields := C8_manifest_required_fields.2.2.2.2.2 dMin mMin rfl rfl rfl rfl rfl rfl hok
  exact ⟨C8_manifest_required_fields.1 [] rfl,
    C8_manifest_required_fields.2.1 dNoName rfl rfl,
    C8_manifest_required_fields.2.2.1 dNoVer rfl rfl rfl,
    C8_manifest_required_fields.2.2.2.1, hok,
    hfields.1, hfields.2.1, hfields.2.2.1, hfields.2.2.2.1, hfields.2.2.2.2.1,
    hfields.2.2.2.2.2⟩

/-- Counterexample to C7: the fixture platform entry has a non-empty
variants map that lacks the requested `release` variant, yet resolution
returns the legacy flat library and checksum instead of failing, and the
full extraction pipeline succeeds on it end to end. -/
theorem C7_variant_strictness_counterexample :
    platE.variants ≠ [] ∧
    lookupA platE.variants (pyS "release") = none ∧
    platE.get_default_variant = pyS "release" ∧
    platE.get_library (pyS "release") = pyS "lib/legacy.so" ∧
    platE.get_checksum (pyS "release") = pyS "sha256:d0" ∧
    loadManifest ext0 zip0 = .ok m0man ∧
    m0man.get_platform (getCurrentPlatform (pyS "Linux") (pyS "x86_64")) = some platE ∧
    extractChecks ext0 cfg0 zip0 (pyS "Linux") (pyS "x86_64") none =
      .ok (pyS "legacy.so", [1, 2, 3]) :=
  ⟨by simp [platE], rfl, rfl, rfl, rfl, rfl, rfl, rfl⟩

/-- C7 as amended: when the variants map does not contain the requested
(or default) variant, resolution falls back to the entry's legacy flat
library/checksum fields; extraction fails with the variant-not-found
error only when that legacy library path is empty. -/
theorem C7_variant_fallback_amended :
    (∀ (p : PlatformInfo) (v : Str),
      lookupA p.variants v = none →
      p.get_library v = p.library ∧ p.get_checksum v = p.checksum) ∧
    (∀ (ext : Ext) (cfg : LoaderCfg) (zip : Zip) (system machine : Str)
        (variant : Option Str) (m : BundleManifest) (pinfo : PlatformInfo),
      loadManifest ext zip = .ok m →
      (cfg.verify_signatures = true → verifyManifestSignature ext cfg zip m = .ok ()) →
      m.get_platform (getCurrentPlatform system machine) = some pinfo →
      lookupA pinfo.variants (pyVariantOr variant pinfo.get_default_variant) = none →
      pinfo.library = [] →
      extractChecks ext cfg zip system machine variant =
        .error (.variantNotFound (pyVariantOr variant pinfo.get_default_variant)
          (getCurrentPlatform system machine))) := by
  constructor
  · intro p v h
    unfold PlatformInfo.get_library PlatformInfo.get_checksum
    rw [h]
    exact ⟨rfl, rfl⟩
  · intro ext cfg zip sys mach variant m pinfo hm hsig hp hlook hlib
    have hlibe : (pinfo.get_library (pyVariantOr variant pinfo.get_default_variant)).isEmpty
        = true := by
      unfold PlatformInfo.get_library
      rw [hlook, hlib]
      rfl
    by_cases hv : cfg.verify_signatures
    · simp [extractChecks, hm, hsig hv, hp, hv, hlibe]
    · simp [extractChecks, hm, hp, hv, hlibe]

/-- Witness for the amended C7: the fallback equations at the fixture
entry, and a fixture whose legacy library field is empty failing with
the variant-not-found error. -/
theorem C7_variant_fallback_amended_witness :
    platE.get_library (pyS "release") = platE.library ∧
    platE.get_checksum (pyS "release") = platE.checksum ∧
    extractChecks ext0 cfg0 zip4 (pyS "Linux") (pyS "x86_64") none =
      .error (.variantNotFound (pyS "release") (pyS "linux-x86_64")) := by
  have h1 := C7_variant_fallback_amended.1 platE (pyS "release") rfl
  have h2 := C7_variant_fallback_amended.2 ext0 cfg0 zip4 (pyS "Linux") (pyS "x86_64")
    none m4man plat4 rfl (fun h => absurd h (by decide)) rfl rfl rfl
  exact ⟨h1.1, h1.2, h2⟩

/-- C9: in safe mode (`fail_if_exists=True`, i.e. `extract_library`),
every write the extraction performs targets a file name that was not
already present in the destination, and whenever the resolved file name
is already present the call fails with the file-exists error and
performs no filesystem operation at all. -/
theorem C9_safe_mode_destination_conflict :
    (∀ (ext : Ext) (cfg : LoaderCfg) (zip : Option Zip) (system machine osName dest : Str)
        (destExisting : List Str) (d f : Str) (data : Bytes),
      FxOp.writeFile d f data ∈
        (extract_library ext cfg zip system machine osName dest destExisting).2 →
      destExisting.contains f = false) ∧
    (∀ (ext : Ext) (cfg : LoaderCfg) (z : Zip) (system machine osName dest : Str)
        (destExisting : List Str) (f : Str) (d : Bytes),
      extractChecks ext cfg z system machine none = .ok (f, d) →
      destExisting.contains f = true →
      extract_library ext cfg (some z) system machine osName dest destExisting =
        (.error (.fileExists f), [])) := by
  constructor
  · intro ext cfg zip sys mach osN dest dE d f data hmem
    cases zip with
    | none => simp [extract_library] at hmem
    | some z =>
      cases hck : extractChecks ext cfg z sys mach none with
      | error e => simp [extract_library, extractLibraryInternal, hck] at hmem
      | ok p =>
        obtain ⟨fn, dat⟩ := p
        by_cases hex : fn ∈ dE
        · simp [extract_library, extractLibraryInternal, hck, hex] at hmem
        · by_cases hos : osN = pyS "nt"
          · simp [extract_library, extractLibraryInternal, hck, hex, hos] at hmem
            rw [hmem.2.1]
            simpa using hex
          · simp [extract_library, extractLibraryInternal, hck, hex, hos] at hmem
            obtain ⟨-, hf, -⟩ := hmem
            rw [hf]
            simpa using hex
  · intro ext cfg z sys mach osN dest dE f d hck hcont
    have hmemf : f ∈ dE := by simpa using hcont
    simp [extract_library, extractLibraryInternal, hck, hmemf]

/-- Witness for C9: with `legacy.so` already present extraction fails
with the file-exists error and performs no operation; with a different
file present the write proceeds and targets a name not in the
destination. -/
theorem C9_safe_mode_destination_conflict_witness :
    extract_library ext0 cfg0 (some zip0) (pyS "Linux") (pyS "x86_64") (pyS "posix")
      tmp0 [pyS "legacy.so"] = (.error (.fileExists (pyS "legacy.so")), []) ∧
    FxOp.writeFile tmp0 (pyS "legacy.so") [1, 2, 3] ∈
      (extract_library ext0 cfg0 (some zip0) (pyS "Linux") (pyS "x86_64") (pyS "posix")
        tmp0 [pyS "other.so"]).2 ∧
    List.contains [pyS "other.so"] (pyS "legacy.so") = false := by
  have hmem : FxOp.writeFile tmp0 (pyS "legacy.so") [1, 2, 3] ∈
      (extract_library ext0 cfg0 (some zip0) (pyS "Linux") (pyS "x86_64") (pyS "posix")
        tmp0 [pyS "other.so"]).2 := by decide
  exact ⟨C9_safe_mode_destination_conflict.2 ext0 cfg0 zip0 (pyS "Linux") (pyS "x86_64")
      (pyS "posix") tmp0 [pyS "legacy.so"] (pyS "legacy.so") [1, 2, 3] rfl rfl,
    hmem,
    C9_safe_mode_destination_conflict.1 ext0 cfg0 (some zip0) (pyS "Linux") (pyS "x86_64")
      (pyS "posix") tmp0 [pyS "other.so"] tmp0 (pyS "legacy.so") [1, 2, 3] hmem⟩

/-- C2: whenever library or schema extraction succeeds — under any
signature-verification configuration — the returned bytes passed the
SHA-256 check against the manifest-declared checksum; and whenever the
read bytes fail that check (the earlier stages having succeeded), the
pipeline fails with precisely the checksum-mismatch error. -/
theorem C2_checksum_mandatory :
    (∀ (ext : Ext) (cfg : LoaderCfg) (zip : Zip) (system machine : Str)
        (variant : Option Str) (m : BundleManifest) (pinfo : PlatformInfo)
        (f : Str) (d : Bytes),
      loadManifest ext zip = .ok m →
      m.get_platform (getCurrentPlatform system machine) = some pinfo →
      extractChecks ext cfg zip system machine variant = .ok (f, d) →
      verifyChecksum ext.sha256hex d
        (pinfo.get_checksum (pyVariantOr variant pinfo.get_default_variant)) = true) ∧
    (∀ (ext : Ext) (zip : Zip) (schemaName : Str) (m : BundleManifest)
        (si : SchemaInfo) (d : Bytes),
      loadManifest ext zip = .ok m →
      lookupA m.schemas schemaName = some si →
      extractSchemaChecks ext zip schemaName = .ok d →
      verifyChecksum ext.sha256hex d si.checksum = true) ∧
    (∀ (ext : Ext) (cfg : LoaderCfg) (zip : Zip) (system machine : Str)
        (variant : Option Str) (m : BundleManifest) (pinfo : PlatformInfo)
        (libData : Bytes),
      loadManifest ext zip = .ok m →
      (cfg.verify_signatures = true → verifyManifestSignature ext cfg zip m = .ok ()) →
      m.get_platform (getCurrentPlatform system machine) = some pinfo →
      pinfo.get_library (pyVariantOr variant pinfo.get_default_variant) ≠ [] →
      readZipEntry zip
        (pinfo.get_library (pyVariantOr variant pinfo.get_default_variant)) = .ok libData →
      verifyChecksum ext.sha256hex libData
        (pinfo.get_checksum (pyVariantOr variant pinfo.get_default_variant)) = false →
      extractChecks ext cfg zip system machine variant =
        .error (.checksumMismatch
          (pinfo.get_library (pyVariantOr variant pinfo.get_default_variant)))) ∧
    (∀ (ext : Ext) (zip : Zip) (schemaName : Str) (m : BundleManifest)
        (si : SchemaInfo) (d : Bytes),
      loadManifest ext zip = .ok m →
      lookupA m.schemas schemaName = some si →
      readZipEntry zip si.path = .ok d →
      verifyChecksum ext.sha256hex d si.checksum = false →
      extractSchemaChecks ext zip schemaName =
        .error (.schemaChecksumMismatch schemaName)) :=
  ⟨fun ext cfg zip sys mach variant m pinfo f d hm hp h =>
      extractChecks_ok_checksum ext cfg zip sys mach variant m pinfo f d hm hp h,
    fun ext zip name m si d hm hs h =>
      extractSchemaChecks_ok_checksum ext zip name m si d hm hs h,
    fun ext cfg zip sys mach variant m pinfo libData hm hsig hp hlib hread hver =>
      extractChecks_mismatch ext cfg zip sys mach variant m pinfo libData
        hm hsig hp hlib hread hver,
    fun ext zip name m si d hm hs hread hver =>
      extractSchemaChecks_mismatch ext zip name m si d hm hs hread hver⟩

/-- Witness for C2: the fixture bundles — a correct library checksum, a
correct schema checksum, a wrong library checksum, and a schema whose
declared checksum cannot match. -/
theorem C2_checksum_mandatory_witness :
    verifyChecksum ext0.sha256hex [1, 2, 3]
      (platE.get_checksum (pyVariantOr none platE.get_default_variant)) = true ∧
    verifyChecksum ext0.sha256hex [9] si2.checksum = true ∧
    extractChecks ext0 cfg0 zip1 (pyS "Linux") (pyS "x86_64") none =
      .error (.checksumMismatch (pyS "lib/legacy.so")) ∧
    extractSchemaChecks ext0 zip3 (pyS "s.h") =
      .error (.schemaChecksumMismatch (pyS "s.h")) := by
  refine ⟨?_, ?_, ?_, ?_⟩
  · exact C2_checksum_mandatory.1 ext0 cfg0 zip0 (pyS "Linux") (pyS "x86_64") none
      m0man platE (pyS "legacy.so") [1, 2, 3] rfl rfl rfl
  · exact C2_checksum_mandatory.2.1 ext0 zip2 (pyS "api.h") m2man si2 [9] rfl rfl rfl
  · exact C2_checksum_mandatory.2.2.1 ext0 cfg0 zip1 (pyS "Linux") (pyS "x86_64") none
      m1man plat1 [1, 2, 3] rfl (fun h => absurd h (by decide)) rfl (by decide) rfl rfl
  · exact C2_checksum_mandatory.2.2.2 ext0 zip3 (pyS "s.h") m3 si3 [8] rfl rfl rfl rfl

lemma extractLibraryInternal_error_nil (ext : Ext) (cfg : LoaderCfg) (zip : Zip)
    (system machine osName dest : Str) (destExisting : List Str)
    (failIfExists : Bool) (variant : Option Str) (e : PlugErr)
    (h : (extractLibraryInternal ext cfg zip system machine osName dest destExisting
      failIfExists variant).1 = .error e) :
    (extractLibraryInternal ext cfg zip system machine osName dest destExisting
      failIfExists variant).2 = [] := by
  cases hck : extractChecks ext cfg zip system machine variant with
  | error e2 => simp [extractLibraryInternal, hck]
  | ok p =>
    obtain ⟨fn, dat⟩ := p
    by_cases hex : failIfExists = true ∧ fn ∈ destExisting
    · simp [extractLibraryInternal, hck, hex]
    · exfalso
      simp [extractLibraryInternal, hck, hex] at h

lemma extractLibraryInternal_ok_trace (ext : Ext) (cfg : LoaderCfg) (zip : Zip)
    (system machine osName dest : Str) (destExisting : List Str)
    (failIfExists : Bool) (variant : Option Str) (f : Str)
    (h : (extractLibraryInternal ext cfg zip system machine osName dest destExisting
      failIfExists variant).1 = .ok f) :
    ∃ d, (extractLibraryInternal ext cfg zip system machine osName dest destExisting
      failIfExists variant).2 =
      .mkdirP dest :: .writeFile dest f d ::
        (if osName = pyS "nt" then [] else [.chmodX dest f]) := by
  cases hck : extractChecks ext cfg zip system machine variant with
  | error e2 => exact absurd h (by simp [extractLibraryInternal, hck])
  | ok p =>
    obtain ⟨fn, dat⟩ := p
    by_cases hex : failIfExists = true ∧ fn ∈ destExisting
    · exact absurd h (by simp [extractLibraryInternal, hck, hex])
    · refine ⟨dat, ?_⟩
      have hfn : fn = f := by
        have h' := h
        simp [extractLibraryInternal, hck, hex] at h'
        exact h'
      rw [← hfn]
      simp [extractLibraryInternal, hck, hex]

/-- Counterexample to C1: `extract_library_to_temp` on a bundle whose
archive lacks `manifest.json` fails, yet its freshly created temporary
directory is not deleted — the trace holds only the `mkdtemp` and the
directory still exists afterwards, contradicting the claim that every
ephemeral-mode temp directory is deleted before the error propagates. -/
theorem C1_temp_cleanup_counterexample :
    (extract_library_to_temp ext0 cfg0 (some []) (pyS "Linux") (pyS "x86_64")
      (pyS "posix") tmp0).1 = .error (.fileNotFound manifestName) ∧
    (extract_library_to_temp ext0 cfg0 (some []) (pyS "Linux") (pyS "x86_64")
      (pyS "posix") tmp0).2 = [.mkdtempD tmp0] ∧
    dirAfter (extract_library_to_temp ext0 cfg0 (some []) (pyS "Linux") (pyS "x86_64")
      (pyS "posix") tmp0).2 tmp0 = true :=
  ⟨rfl, rfl, rfl⟩

/-- C1 as amended: on any pipeline failure no file is ever written — the
internal extraction's effect trace is empty on error, so safe mode never
touches the destination; `load_with_config` additionally removes its
temp directory, leaving no file and no directory behind; and
`extract_library_to_temp` on failure performs no write either, though it
leaves its (empty) temp directory behind. -/
theorem C1_no_partial_state_amended :
    (∀ (ext : Ext) (cfg : LoaderCfg) (zip : Zip) (system machine osName dest : Str)
        (destExisting : List Str) (failIfExists : Bool) (variant : Option Str)
        (e : PlugErr),
      (extractLibraryInternal ext cfg zip system machine osName dest destExisting
        failIfExists variant).1 = .error e →
      (extractLibraryInternal ext cfg zip system machine osName dest destExisting
        failIfExists variant).2 = []) ∧
    (∀ (ext : Ext) (cfg : LoaderCfg) (zip : Option Zip) (system machine osName tempDir : Str)
        (loadNative : Str → Str → Except PlugErr Nat) (e : PlugErr),
      (load_with_config ext cfg zip system machine osName tempDir loadNative).1 =
        .error e →
      (∀ d f, fileAfter
        (load_with_config ext cfg zip system machine osName tempDir loadNative).2 d f
        = none) ∧
      dirAfter (load_with_config ext cfg zip system machine osName tempDir loadNative).2
        tempDir = false) ∧
    (∀ (ext : Ext) (cfg : LoaderCfg) (zip : Option Zip) (system machine osName tempDir : Str)
        (e : PlugErr) (d f : Str) (data : Bytes),
      (extract_library_to_temp ext cfg zip system machine osName tempDir).1 = .error e →
      FxOp.writeFile d f data ∉
        (extract_library_to_temp ext cfg zip system machine osName tempDir).2) := by
  refine ⟨?_, ?_, ?_⟩
  · intro ext cfg zip sys mach osN dest dE fie variant e h
    exact extractLibraryInternal_error_nil ext cfg zip sys mach osN dest dE fie variant e h
  · intro ext cfg zip sys mach osN td ln e h
    cases zip with
    | none => exact ⟨fun d f => rfl, rfl⟩
    | some z =>
      rcases hint : extractLibraryInternal ext cfg z sys mach osN td [] false none
        with ⟨r, fx⟩
      cases r with
      | error e2 =>
        have h1 : (extractLibraryInternal ext cfg z sys mach osN td [] false none).1 =
            .error e2 := by rw [hint]
        have h2 := extractLibraryInternal_error_nil ext cfg z sys mach osN td [] false
          none e2 h1
        rw [hint] at h2
        simp only at h2
        subst h2
        constructor
        · intro d f
          simp [load_with_config, hint, fileAfter]
        · simp [load_with_config, hint, dirAfter]
      | ok fn =>
        cases hln : ln td fn with
        | ok handle =>
          exfalso
          simp [load_with_config, hint, hln] at h
        | error e2 =>
          have h1 : (extractLibraryInternal ext cfg z sys mach osN td [] false none).1 =
              .ok fn := by rw [hint]
          obtain ⟨dat, hfx⟩ := extractLibraryInternal_ok_trace ext cfg z sys mach osN td
            [] false none fn h1
          rw [hint] at hfx
          simp only at hfx
          subst hfx
          constructor
          · intro d f
            simp only [load_with_config, hint, hln]
            by_cases hos : osN = pyS "nt" <;> by_cases hd : td = d <;>
              simp [fileAfter, hos, hd]
          · simp only [load_with_config, hint, hln]
            by_cases hos : osN = pyS "nt" <;> simp [dirAfter, hos]
  · intro ext cfg zip sys mach osN td e d f data h
    cases zip with
    | none =>
      intro hmem
      simp [extract_library_to_temp] at hmem
    | some z =>
      rcases hint : extractLibraryInternal ext cfg z sys mach osN td [] false none
        with ⟨r, fx⟩
      cases r with
      | ok fn =>
        exfalso
        simp [extract_library_to_temp, hint] at h
      | error e2 =>
        have h1 : (extractLibraryInternal ext cfg z sys mach osN td [] false none).1 =
            .error e2 := by rw [hint]
        have h2 := extractLibraryInternal_error_nil ext cfg z sys mach osN td [] false
          none e2 h1
        rw [hint] at h2
        simp only at h2
        subst h2
        intro hmem
        simp [extract_library_to_temp, hint] at hmem

/-- Witness for the amended C1 at concrete failing runs: the internal
extraction leaves an empty trace, a failed `load_with_config` leaves no
file and no temp directory behind, and a failed
`extract_library_to_temp` performs no write. -/
theorem C1_no_partial_state_amended_witness :
    (extractLibraryInternal ext0 cfg0 [] (pyS "Linux") (pyS "x86_64") (pyS "posix")
      tmp0 [] false none).2 = [] ∧
    fileAfter (load_with_config ext0 cfg0 (some []) (pyS "Linux") (pyS "x86_64")
      (pyS "posix") tmp0 (fun _ _ => .ok 0)).2 (pyS "/opt") (pyS "lib.so") = none ∧
    dirAfter (load_with_config ext0 cfg0 (some []) (pyS "Linux") (pyS "x86_64")
      (pyS "posix") tmp0 (fun _ _ => .ok 0)).2 tmp0 = false ∧
    FxOp.writeFile tmp0 (pyS "lib.so") [1] ∉
      (extract_library_to_temp ext0 cfg0 (some []) (pyS "Linux") (pyS "x86_64")
        (pyS "posix") tmp0).2 := by
  have h2 := C1_no_partial_state_amended.2.1 ext0 cfg0 (some []) (pyS "Linux")
    (pyS "x86_64") (pyS "posix") tmp0 (fun _ _ => .ok 0) (.fileNotFound manifestName) rfl
  exact ⟨C1_no_partial_state_amended.1 ext0 cfg0 [] (pyS "Linux") (pyS "x86_64")
      (pyS "posix") tmp0 [] false none (.fileNotFound manifestName) rfl,
    h2.1 (pyS "/opt") (pyS "lib.so"), h2.2,
    C1_no_partial_state_amended.2.2 ext0 cfg0 (some []) (pyS "Linux") (pyS "x86_64")
      (pyS "posix") tmp0 (.fileNotFound manifestName) tmp0 (pyS "lib.so") [1] rfl⟩

end RustBridge
